import Mathlib

/-!
Shallow embedding of the astroNN h5 compiler pipeline
(src/astroNN/datasets/h5_compiler.py and src/astroNN/apogee/apogee_shared.py).

Numeric catalog quantities are modelled as rationals, spectra as lists,
numpy index vectors as lists of naturals.
-/

namespace AstroNN

/-- Model of numpy arange(a, b, 1): the ascending list of naturals in [a, b). -/
def npArange (a b : Nat) : List Nat := (List.range (b - a)).map (a + ·)

/-- Keep the elements of a list whose absolute position (positions counted
from n for the head) satisfies the predicate p. -/
def keepFrom {α : Type} (p : Nat → Bool) : Nat → List α → List α
  | _, [] => []
  | n, x :: xs => if p n then x :: keepFrom p (n + 1) xs else keepFrom p (n + 1) xs

/-- Model of numpy delete(arr, idxs) on a 1-D array: remove the entries whose
index lies in idxs, keeping the rest in order. -/
def npDelete {α : Type} (arr : List α) (idxs : List Nat) : List α :=
  keepFrom (fun i => !(idxs.contains i)) 0 arr

/-- apogee_default_dr from src/astroNN/apogee/apogee_shared.py lines 18-30:
a missing data-release argument defaults to 14, anything else passes through. -/
def apogee_default_dr (dr : Option Int) : Int :=
  match dr with
  | none => 14
  | some d => d

/-- The DR13 branch of gap_delete (h5_compiler.py lines 51-60): delete
arange(8306, len), arange(6049, 6412), arange(3243, 3648), arange(0, 322),
in that order, against the original array. -/
def gap13 {α : Type} (single_spec : List α) : List α :=
  npDelete (npDelete (npDelete (npDelete single_spec
    (npArange 8306 single_spec.length))
    (npArange 6049 6412)) (npArange 3243 3648)) (npArange 0 322)

/-- The DR14 branch of gap_delete (h5_compiler.py lines 61-70): delete
arange(8335, 8575), arange(6080, 6344), arange(3274, 3585), arange(0, 246),
in that order, against the original array. -/
def gap14 {α : Type} (single_spec : List α) : List α :=
  npDelete (npDelete (npDelete (npDelete single_spec
    (npArange 8335 8575))
    (npArange 6080 6344)) (npArange 3274 3585)) (npArange 0 246)

/-- gap_delete (h5_compiler.py lines 38-72): apply the default for a missing
dr, dispatch on dr = 13 / dr = 14, raise ValueError otherwise. -/
def gap_delete {α : Type} (single_spec : List α) (dr : Option Int) :
    Except String (List α) :=
  let d := apogee_default_dr dr
  if d = 13 then Except.ok (gap13 single_spec)
  else if d = 14 then Except.ok (gap14 single_spec)
  else Except.error "Only DR13 and DR14 are supported"

/-- Spec-side description of the four DR13 gap ranges; the last range runs to
the end of the input (length len). -/
def inGap13 (len i : Nat) : Bool :=
  decide (i < 322) || decide (3243 ≤ i ∧ i < 3648) ||
  decide (6049 ≤ i ∧ i < 6412) || decide (8306 ≤ i ∧ i < len)

/-- Spec-side description of the four DR14 gap ranges. -/
def inGap14 (i : Nat) : Bool :=
  decide (i < 246) || decide (3274 ≤ i ∧ i < 3585) ||
  decide (6080 ≤ i ∧ i < 6344) || decide (8335 ≤ i ∧ i < 8575)

lemma mem_npArange {i a b : Nat} : i ∈ npArange a b ↔ a ≤ i ∧ i < b := by
  simp only [npArange, List.mem_map, List.mem_range]
  constructor
  · rintro ⟨j, hj, rfl⟩
    omega
  · rintro ⟨h1, h2⟩
    exact ⟨i - a, by omega, by omega⟩

lemma contains_npArange (a b i : Nat) :
    (npArange a b).contains i = decide (a ≤ i ∧ i < b) := by
  rw [Bool.eq_iff_iff]
  simp [mem_npArange]

lemma keepFrom_congr {α : Type} {p q : Nat → Bool} (h : ∀ i, p i = q i) :
    ∀ (n : Nat) (arr : List α), keepFrom p n arr = keepFrom q n arr := by
  intro n arr
  induction arr generalizing n with
  | nil => rfl
  | cons x xs ih => simp only [keepFrom, h, ih]

/-- Composing two keepFrom passes whose dropped positions are separated by a
threshold m (the outer pass only drops below m, the inner one only at or
above m) keeps exactly the positions satisfying both predicates. -/
lemma keepFrom_comp {α : Type} (p q : Nat → Bool) (m : Nat)
    (hp : ∀ i, m ≤ i → p i = true) (hq : ∀ i, i < m → q i = true) :
    ∀ (arr : List α) (n n' : Nat), n' ≤ n → (n' < n → m ≤ n') →
      keepFrom p n' (keepFrom q n arr) = keepFrom (fun i => p i && q i) n arr := by
  intro arr
  induction arr with
  | nil => intro n n' _ _; rfl
  | cons x xs ih =>
    intro n n' hle hinv
    by_cases hqn : q n = true
    · have hpn : p n' = p n := by
        rcases Nat.lt_or_ge n' n with hlt | hge
        · rw [hp n' (hinv hlt), hp n (le_trans (hinv hlt) (Nat.le_of_lt hlt))]
        · rw [Nat.le_antisymm hle hge]
      have hrec := ih (n + 1) (n' + 1) (Nat.succ_le_succ hle)
        (fun h => le_trans (hinv (Nat.lt_of_succ_lt_succ h)) (Nat.le_succ n'))
      by_cases hpn' : p n' = true
      · simp only [keepFrom, hqn, if_true, hpn', hpn.symm.trans hpn', Bool.true_and,
          hrec]
      · have hpn2 : p n = false := by
          rw [← hpn]; exact Bool.eq_false_iff.mpr hpn'
        simp only [keepFrom, hqn, if_true, hpn', hpn2, Bool.false_and, if_false,
          Bool.false_eq_true, hrec]
    · have hmn : m ≤ n := by
        by_contra hcon
        exact hqn (hq n (Nat.lt_of_not_le hcon))
      have hqn2 : q n = false := Bool.eq_false_iff.mpr hqn
      have hrec := ih (n + 1) n' (le_trans hle (Nat.le_succ n))
        (fun _ => by
          rcases Nat.lt_or_ge n' n with hlt | hge
          · exact hinv hlt
          · exact le_trans hmn hge)
      simp only [keepFrom, hqn2, Bool.false_eq_true, if_false, Bool.and_false, hrec]

/-- keepFrom with the complement of the interval [a, b) (for a ≤ b) is the
concatenation of the prefix before the interval and the suffix after it,
relative to the starting position n. -/
lemma keepFrom_interval {α : Type} (a b : Nat) (hab : a ≤ b) :
    ∀ (arr : List α) (n : Nat),
      keepFrom (fun i => !(decide (a ≤ i ∧ i < b))) n arr =
        arr.take (a - n) ++ arr.drop (b - n) := by
  intro arr
  induction arr with
  | nil => intro n; simp [keepFrom]
  | cons x xs ih =>
    intro n
    by_cases h1 : n < a
    · have hc : (!(decide (a ≤ n ∧ n < b))) = true := by simp; omega
      have ht : a - n = (a - (n + 1)) + 1 := by omega
      have hd : b - n = (b - (n + 1)) + 1 := by omega
      simp only [keepFrom, hc, if_true, ih (n + 1), ht, hd, List.take_succ_cons,
        List.drop_succ_cons, List.cons_append]
    · by_cases h2 : n < b
      · have hc : (!(decide (a ≤ n ∧ n < b))) = false := by simp; omega
        have ht : a - n = 0 := by omega
        have ht2 : a - (n + 1) = 0 := by omega
        have hd : b - n = (b - (n + 1)) + 1 := by omega
        simp only [keepFrom, hc, Bool.false_eq_true, if_false, ih (n + 1), ht, ht2,
          hd, List.take_zero, List.nil_append, List.drop_succ_cons]
      · have hc : (!(decide (a ≤ n ∧ n < b))) = true := by simp; omega
        have ht : a - n = 0 := by omega
        have ht2 : a - (n + 1) = 0 := by omega
        have hd : b - n = 0 := by omega
        have hd2 : b - (n + 1) = 0 := by omega
        simp only [keepFrom, hc, if_true, ih (n + 1), ht, ht2, hd, hd2,
          List.take_zero, List.nil_append, List.drop_zero]

/-- npDelete of a contiguous arange range, written as a keepFrom over the
complement of the interval. -/
lemma npDelete_arange_keep {α : Type} (arr : List α) (a b : Nat) :
    npDelete arr (npArange a b) =
      keepFrom (fun i => !(decide (a ≤ i ∧ i < b))) 0 arr :=
  keepFrom_congr (fun i => by rw [contains_npArange]) 0 arr

/-- npDelete of a contiguous arange range is take-prefix plus drop-suffix. -/
lemma npDelete_arange {α : Type} (arr : List α) (a b : Nat) (hab : a ≤ b) :
    npDelete arr (npArange a b) = arr.take a ++ arr.drop b := by
  rw [npDelete_arange_keep, keepFrom_interval a b hab arr 0]
  simp

lemma gap14_length {α : Type} (spec : List α) (h : spec.length = 8575) :
    (gap14 spec).length = 7514 := by
  rw [gap14, npDelete_arange _ 8335 8575 (by omega), npDelete_arange _ 6080 6344 (by omega),
    npDelete_arange _ 3274 3585 (by omega), npDelete_arange _ 0 246 (by omega)]
  simp only [List.length_append, List.length_take, List.length_drop, h]
  omega

lemma gap13_length {α : Type} (spec : List α) (h : spec.length = 8575) :
    (gap13 spec).length = 7216 := by
  rw [gap13, h, npDelete_arange _ 8306 8575 (by omega), npDelete_arange _ 6049 6412 (by omega),
    npDelete_arange _ 3243 3648 (by omega), npDelete_arange _ 0 322 (by omega)]
  simp only [List.length_append, List.length_take, List.length_drop, h]
  omega

/-- The DR14 branch keeps exactly the entries whose original index is in none
of the four DR14 gap ranges. -/
lemma gap14_eq_keep {α : Type} (spec : List α) :
    gap14 spec = keepFrom (fun i => !(inGap14 i)) 0 spec := by
  rw [gap14, npDelete_arange_keep, npDelete_arange_keep, npDelete_arange_keep,
    npDelete_arange_keep]
  rw [keepFrom_comp (fun i => !(decide (6080 ≤ i ∧ i < 6344)))
    (fun i => !(decide (8335 ≤ i ∧ i < 8575))) 6344
    (fun i h => by simp; omega) (fun i h => by simp; omega)
    spec 0 0 le_rfl (fun h => absurd h (Nat.lt_irrefl 0))]
  rw [keepFrom_comp (fun i => !(decide (3274 ≤ i ∧ i < 3585)))
    (fun i => !(decide (6080 ≤ i ∧ i < 6344)) && !(decide (8335 ≤ i ∧ i < 8575))) 3585
    (fun i h => by simp; omega) (fun i h => by simp [decide_eq_false_iff_not]; omega)
    spec 0 0 le_rfl (fun h => absurd h (Nat.lt_irrefl 0))]
  rw [keepFrom_comp (fun i => !(decide (0 ≤ i ∧ i < 246)))
    (fun i => !(decide (3274 ≤ i ∧ i < 3585)) &&
      (!(decide (6080 ≤ i ∧ i < 6344)) && !(decide (8335 ≤ i ∧ i < 8575)))) 246
    (fun i h => by simp; omega) (fun i h => by simp [decide_eq_false_iff_not]; omega)
    spec 0 0 le_rfl (fun h => absurd h (Nat.lt_irrefl 0))]
  exact keepFrom_congr (fun i => by
    rw [Bool.eq_iff_iff]
    simp [inGap14, decide_eq_false_iff_not]
    omega) 0 spec

/-- The DR13 branch keeps exactly the entries whose original index is in none
of the four DR13 gap ranges (the last one running to the end of the input). -/
lemma gap13_eq_keep {α : Type} (spec : List α) :
    gap13 spec = keepFrom (fun i => !(inGap13 spec.length i)) 0 spec := by
  rw [gap13, npDelete_arange_keep, npDelete_arange_keep, npDelete_arange_keep,
    npDelete_arange_keep]
  rw [keepFrom_comp (fun i => !(decide (6049 ≤ i ∧ i < 6412)))
    (fun i => !(decide (8306 ≤ i ∧ i < spec.length))) 6412
    (fun i h => by simp; omega) (fun i h => by simp; omega)
    spec 0 0 le_rfl (fun h => absurd h (Nat.lt_irrefl 0))]
  rw [keepFrom_comp (fun i => !(decide (3243 ≤ i ∧ i < 3648)))
    (fun i => !(decide (6049 ≤ i ∧ i < 6412)) &&
      !(decide (8306 ≤ i ∧ i < spec.length))) 3648
    (fun i h => by simp; omega) (fun i h => by simp [decide_eq_false_iff_not]; omega)
    spec 0 0 le_rfl (fun h => absurd h (Nat.lt_irrefl 0))]
  rw [keepFrom_comp (fun i => !(decide (0 ≤ i ∧ i < 322)))
    (fun i => !(decide (3243 ≤ i ∧ i < 3648)) &&
      (!(decide (6049 ≤ i ∧ i < 6412)) && !(decide (8306 ≤ i ∧ i < spec.length)))) 322
    (fun i h => by simp; omega) (fun i h => by simp [decide_eq_false_iff_not]; omega)
    spec 0 0 le_rfl (fun h => absurd h (Nat.lt_irrefl 0))]
  exact keepFrom_congr (fun i => by
    rw [Bool.eq_iff_iff]
    simp [inGap13, decide_eq_false_iff_not]
    omega) 0 spec

/-- C1: for both supported data-release versions and every input of the
nominal length 8575, gap_delete returns exactly the elements whose index lies
in none of the four version-specific gap ranges, in original order; the
output length is the input length minus the sum of the four range widths,
7514 for version 14. -/
theorem c1_gap_delete_exact {α : Type} (spec : List α) (h : spec.length = 8575) :
    gap_delete spec (some 14) = Except.ok (keepFrom (fun i => !(inGap14 i)) 0 spec) ∧
    gap_delete spec (some 13) =
      Except.ok (keepFrom (fun i => !(inGap13 8575 i)) 0 spec) ∧
    (gap14 spec).length = 8575 - (246 + 311 + 264 + 240) ∧
    (gap13 spec).length = 8575 - (322 + 405 + 363 + 269) ∧
    (gap14 spec).length = 7514 := by
  refine ⟨?_, ?_, ?_, ?_, ?_⟩
  · rw [show gap_delete spec (some 14) = Except.ok (gap14 spec) from rfl,
      gap14_eq_keep]
  · rw [show gap_delete spec (some 13) = Except.ok (gap13 spec) from rfl,
      gap13_eq_keep, h]
  · rw [gap14_length spec h]
  · rw [gap13_length spec h]
  · exact gap14_length spec h

/-- Witness for C1 at a concrete 8575-element input. -/
theorem c1_witness :
    (List.range 8575 : List Nat).length = 8575 ∧
      (gap14 (List.range 8575)).length = 7514 :=
  ⟨List.length_range 8575,
    (c1_gap_delete_exact (List.range 8575) (List.length_range 8575)).2.2.2.2⟩

/-- C5: gap_delete raises the ValueError for every data-release version other
than 13 and 14 (a missing version defaults to 14), and never returns a result
for an unsupported version: the error replaces any output. -/
theorem c5_unsupported_dr_fatal {α : Type} (spec : List α) (d : Int)
    (h13 : d ≠ 13) (h14 : d ≠ 14) :
    gap_delete spec (some d) = Except.error "Only DR13 and DR14 are supported" ∧
    (∀ out : List α, gap_delete spec (some d) ≠ Except.ok out) ∧
    gap_delete spec none = Except.ok (gap14 spec) := by
  refine ⟨?_, ?_, rfl⟩
  · simp [gap_delete, apogee_default_dr, h13, h14]
  · intro out
    simp [gap_delete, apogee_default_dr, h13, h14]

/-- Witness for C5 at the concrete unsupported version 20. -/
theorem c5_witness :
    ((20 : Int) ≠ 13) ∧ ((20 : Int) ≠ 14) ∧
      gap_delete ([0] : List Nat) (some 20) =
        Except.error "Only DR13 and DR14 are supported" :=
  ⟨by decide, by decide,
    (c5_unsupported_dr_fatal ([0] : List Nat) 20 (by decide) (by decide)).1⟩

/-- Model of numpy where(cond)[0]: the ascending indices at which cond holds. -/
def npWhere (cond : List Bool) : List Nat :=
  (List.range cond.length).filter (fun i => cond.getD i false)

/-- Sort ascending and remove duplicates; the canonical form numpy
intersect1d returns its result in. -/
def sortUnique (l : List Nat) : List Nat := l.dedup.insertionSort (· ≤ ·)

/-- Model of numpy intersect1d: the sorted unique values common to both
inputs. -/
def intersect1d (a b : List Nat) : List Nat :=
  sortUnique (a.filter (fun x => b.contains x))

/-- Model of functools.reduce(np.intersect1d, first :: rest): left fold of
intersect1d over the criterion index sets. -/
def reduceIntersect (first : List Nat) (rest : List (List Nat)) : List Nat :=
  rest.foldl intersect1d first

lemma mem_sortUnique {x : Nat} {l : List Nat} : x ∈ sortUnique l ↔ x ∈ l := by
  rw [sortUnique, (List.perm_insertionSort (· ≤ ·) l.dedup).mem_iff,
    List.mem_dedup]

lemma sorted_sortUnique (l : List Nat) : (sortUnique l).Sorted (· ≤ ·) :=
  List.sorted_insertionSort (· ≤ ·) l.dedup

lemma nodup_sortUnique (l : List Nat) : (sortUnique l).Nodup :=
  ((List.perm_insertionSort (· ≤ ·) l.dedup).nodup_iff).mpr (List.nodup_dedup l)

lemma mem_intersect1d {x : Nat} {a b : List Nat} :
    x ∈ intersect1d a b ↔ x ∈ a ∧ x ∈ b := by
  rw [intersect1d, mem_sortUnique, List.mem_filter]
  simp

lemma sorted_intersect1d (a b : List Nat) :
    (intersect1d a b).Sorted (· ≤ ·) := sorted_sortUnique _

lemma nodup_intersect1d (a b : List Nat) : (intersect1d a b).Nodup :=
  nodup_sortUnique _

lemma mem_reduceIntersect {x : Nat} :
    ∀ (rest : List (List Nat)) (first : List Nat),
      x ∈ reduceIntersect first rest ↔ x ∈ first ∧ ∀ s ∈ rest, x ∈ s := by
  intro rest
  induction rest with
  | nil => intro first; simp [reduceIntersect]
  | cons s rest ih =>
    intro first
    rw [show reduceIntersect first (s :: rest) =
      reduceIntersect (intersect1d first s) rest from rfl, ih]
    rw [mem_intersect1d]
    constructor
    · rintro ⟨⟨h1, h2⟩, h3⟩
      exact ⟨h1, by simpa using ⟨h2, h3⟩⟩
    · rintro ⟨h1, h2⟩
      simp only [List.mem_cons] at h2
      exact ⟨⟨h1, h2 s (Or.inl rfl)⟩, fun t ht => h2 t (Or.inr ht)⟩

lemma sortedNodup_reduceIntersect :
    ∀ (rest : List (List Nat)) (first : List Nat), rest ≠ [] →
      (reduceIntersect first rest).Sorted (· ≤ ·) ∧
        (reduceIntersect first rest).Nodup := by
  intro rest
  induction rest with
  | nil => intro first h; exact absurd rfl h
  | cons s rest ih =>
    intro first _
    rcases rest with _ | ⟨t, rest⟩
    · exact ⟨sorted_intersect1d first s, nodup_intersect1d first s⟩
    · exact ih (intersect1d first s) (by simp)

/-- Two reduceIntersect results over cons-lists that are permutations of each
other are equal. -/
lemma reduceIntersect_perm {a b : List Nat} {l m : List (List Nat)}
    (h : List.Perm (a :: l) (b :: m)) :
    reduceIntersect a l = reduceIntersect b m := by
  rcases l with _ | ⟨s, l⟩
  · have hm : m = [] := by
      have hlen := h.length_eq
      simp only [List.length_cons, List.length_nil] at hlen
      have hz : m.length = 0 := by omega
      exact List.length_eq_zero.mp hz
    subst hm
    have hab : [a] = [b] := List.perm_singleton.mp h
    simp at hab
    rw [hab]
  · have hm : m ≠ [] := by
      intro hm
      subst hm
      have := h.length_eq
      simp at this
    rcases m with _ | ⟨t, m⟩
    · exact absurd rfl hm
    · have h1 := sortedNodup_reduceIntersect (s :: l) a (by simp)
      have h2 := sortedNodup_reduceIntersect (t :: m) b (by simp)
      refine List.eq_of_perm_of_sorted ?_ h1.1 h2.1
      rw [List.perm_ext_iff_of_nodup h1.2 h2.2]
      intro x
      rw [mem_reduceIntersect, mem_reduceIntersect]
      have hmem : ∀ u : List Nat, u ∈ a :: s :: l ↔ u ∈ b :: t :: m :=
        fun u => h.mem_iff
      constructor
      · rintro ⟨h1x, h2x⟩
        have hall : ∀ u ∈ a :: s :: l, x ∈ u := by
          intro u hu
          rcases List.mem_cons.mp hu with rfl | hu
          · exact h1x
          · exact h2x u hu
        exact ⟨hall b ((hmem b).mpr (List.mem_cons_self b _)),
          fun u hu => hall u ((hmem u).mpr (List.mem_cons_of_mem b hu))⟩
      · rintro ⟨h1x, h2x⟩
        have hall : ∀ u ∈ b :: t :: m, x ∈ u := by
          intro u hu
          rcases List.mem_cons.mp hu with rfl | hu
          · exact h1x
          · exact h2x u hu
        exact ⟨hall a ((hmem a).mp (List.mem_cons_self a _)),
          fun u hu => hall u ((hmem u).mp (List.mem_cons_of_mem a hu))⟩

/-- One row of the allStar catalog table, with the columns compile_apogee
reads (h5_compiler.py lines 103-110 and 194-237). PARAM and X_H are the
per-row slices of the corresponding 2-D columns. -/
structure AllStarRow where
  apogee_id : String
  location_id : Int
  starflag : Int
  aspcapflag : Int
  vscatter : Rat
  snr : Rat
  ra : Rat
  dec : Rat
  param : List Rat
  x_h : List Rat

/-- Default row used to model total indexing into the catalog. -/
def dRow : AllStarRow :=
  { apogee_id := "", location_id := 0, starflag := 0, aspcapflag := 0,
    vscatter := 0, snr := 0, ra := 0, dec := 0, param := [], x_h := [] }

/-- Keyword configuration of compile_apogee (h5_compiler.py lines 75-76),
without the dataset name and data release. -/
structure ApogeeCfg where
  starflagcut : Bool
  aspcapflagcut : Bool
  vscattercut : Rat
  SNRtrain_low : Rat
  SNRtrain_high : Rat
  tefflow : Rat
  teffhigh : Rat
  ironlow : Rat
  SNRtest_low : Rat
  SNRtest_high : Rat

/-- The documented default keyword values of compile_apogee. -/
def defaultCfg : ApogeeCfg :=
  { starflagcut := true, aspcapflagcut := true, vscattercut := 1,
    SNRtrain_low := 200, SNRtrain_high := 99999, tefflow := 4000,
    teffhigh := 5500, ironlow := -3, SNRtest_low := 100, SNRtest_high := 200 }

/-- Index set of the rows satisfying a per-row predicate, in row order:
np.where(condition-column)[0]. -/
def critIdx (p : AllStarRow → Bool) (cat : List AllStarRow) : List Nat :=
  npWhere (cat.map p)

/-- DR_fitlered_starflag (line 114-117): rows with starflag == 0 when the
cut is enabled, every index otherwise. -/
def starflagIdx (cfg : ApogeeCfg) (cat : List AllStarRow) : List Nat :=
  if cfg.starflagcut then critIdx (fun r => decide (r.starflag = 0)) cat
  else List.range cat.length

/-- DR_fitlered_aspcapflag (lines 119-122). -/
def aspcapflagIdx (cfg : ApogeeCfg) (cat : List AllStarRow) : List Nat :=
  if cfg.aspcapflagcut then critIdx (fun r => decide (r.aspcapflag = 0)) cat
  else List.range cat.length

/-- DR_fitlered_temp_lower (line 123): tefflow <= teff, teff = PARAM[:, 0]. -/
def tempLowerIdx (cfg : ApogeeCfg) (cat : List AllStarRow) : List Nat :=
  critIdx (fun r => decide (cfg.tefflow ≤ r.param.getD 0 0)) cat

/-- DR_fitlered_temp_upper (line 124): teffhigh >= teff. -/
def tempUpperIdx (cfg : ApogeeCfg) (cat : List AllStarRow) : List Nat :=
  critIdx (fun r => decide (r.param.getD 0 0 ≤ cfg.teffhigh)) cat

/-- DR_fitlered_vscatter (line 125): vscatter < vscattercut, strictly. -/
def vscatterIdx (cfg : ApogeeCfg) (cat : List AllStarRow) : List Nat :=
  critIdx (fun r => decide (r.vscatter < cfg.vscattercut)) cat

/-- DR_fitlered_Fe (line 126): Fe > ironlow, Fe = X_H[:, 17], strictly. -/
def feIdx (cfg : ApogeeCfg) (cat : List AllStarRow) : List Nat :=
  critIdx (fun r => decide (cfg.ironlow < r.x_h.getD 17 0)) cat

/-- DR_fitlered_logg (line 127): logg != -9999, logg = PARAM[:, 1]. -/
def loggIdx (cat : List AllStarRow) : List Nat :=
  critIdx (fun r => decide (r.param.getD 1 0 ≠ -9999)) cat

/-- DR_fitlered_snrlow (line 128): SNR > SNRtrain_low, strictly. -/
def snrTrainLowIdx (cfg : ApogeeCfg) (cat : List AllStarRow) : List Nat :=
  critIdx (fun r => decide (cfg.SNRtrain_low < r.snr)) cat

/-- DR_fitlered_snrhigh (line 129): SNR < SNRtrain_high, strictly. -/
def snrTrainHighIdx (cfg : ApogeeCfg) (cat : List AllStarRow) : List Nat :=
  critIdx (fun r => decide (r.snr < cfg.SNRtrain_high)) cat

/-- DR_fitlered_SNRtest_low (line 130): SNR > SNRtest_low, strictly. -/
def snrTestLowIdx (cfg : ApogeeCfg) (cat : List AllStarRow) : List Nat :=
  critIdx (fun r => decide (cfg.SNRtest_low < r.snr)) cat

/-- DR_fitlered_SNRtest_high (line 131): SNR < SNRtest_high, strictly. -/
def snrTestHighIdx (cfg : ApogeeCfg) (cat : List AllStarRow) : List Nat :=
  critIdx (fun r => decide (r.snr < cfg.SNRtest_high)) cat

/-- DR14_fitlered_location (line 134): location_id > 1, strictly. -/
def locationIdx (cat : List AllStarRow) : List Nat :=
  critIdx (fun r => decide (1 < r.location_id)) cat

/-- The ten per-criterion index sets of the train filter, in the order of the
reduce call at lines 137-140. -/
def trainCriteria (cfg : ApogeeCfg) (cat : List AllStarRow) : List (List Nat) :=
  [starflagIdx cfg cat, aspcapflagIdx cfg cat, tempLowerIdx cfg cat,
   vscatterIdx cfg cat, feIdx cfg cat, loggIdx cat, snrTrainLowIdx cfg cat,
   snrTrainHighIdx cfg cat, locationIdx cat, tempUpperIdx cfg cat]

/-- The ten per-criterion index sets of the test filter, in the order of the
reduce call at lines 142-146. -/
def testCriteria (cfg : ApogeeCfg) (cat : List AllStarRow) : List (List Nat) :=
  [starflagIdx cfg cat, aspcapflagIdx cfg cat, tempLowerIdx cfg cat,
   vscatterIdx cfg cat, feIdx cfg cat, loggIdx cat, snrTestLowIdx cfg cat,
   snrTestHighIdx cfg cat, locationIdx cat, tempUpperIdx cfg cat]

/-- filtered_train_index (lines 137-140): reduce(np.intersect1d, criteria). -/
def filteredTrainIndex (cfg : ApogeeCfg) (cat : List AllStarRow) : List Nat :=
  reduceIntersect (starflagIdx cfg cat)
    [aspcapflagIdx cfg cat, tempLowerIdx cfg cat, vscatterIdx cfg cat,
     feIdx cfg cat, loggIdx cat, snrTrainLowIdx cfg cat,
     snrTrainHighIdx cfg cat, locationIdx cat, tempUpperIdx cfg cat]

/-- filtered_test_index (lines 142-146). -/
def filteredTestIndex (cfg : ApogeeCfg) (cat : List AllStarRow) : List Nat :=
  reduceIntersect (starflagIdx cfg cat)
    [aspcapflagIdx cfg cat, tempLowerIdx cfg cat, vscatterIdx cfg cat,
     feIdx cfg cat, loggIdx cat, snrTestLowIdx cfg cat,
     snrTestHighIdx cfg cat, locationIdx cat, tempUpperIdx cfg cat]

lemma mem_npWhere {i : Nat} {cond : List Bool} :
    i ∈ npWhere cond ↔ i < cond.length ∧ cond.getD i false = true := by
  rw [npWhere, List.mem_filter, List.mem_range]

lemma mem_critIdx {i : Nat} {p : AllStarRow → Bool} {cat : List AllStarRow} :
    i ∈ critIdx p cat ↔ ∃ r, cat.get? i = some r ∧ p r = true := by
  rw [critIdx, mem_npWhere, List.length_map]
  constructor
  · rintro ⟨hlt, hval⟩
    refine ⟨cat.getD i dRow, ?_, ?_⟩
    · rw [List.get?_eq_getElem?, List.getD_eq_getElem?_getD,
        List.getElem?_eq_getElem hlt]
      rfl
    · rw [List.getD_eq_getElem?_getD, List.getElem?_map,
        List.getElem?_eq_getElem hlt] at hval
      rw [List.getD_eq_getElem?_getD, List.getElem?_eq_getElem hlt]
      simpa using hval
  · rintro ⟨r, hr, hp⟩
    rw [List.get?_eq_getElem?] at hr
    have hlt : i < cat.length := by
      by_contra hcon
      rw [List.getElem?_eq_none (by omega)] at hr
      exact Option.noConfusion hr
    refine ⟨hlt, ?_⟩
    rw [List.getD_eq_getElem?_getD, List.getElem?_map,
      List.getElem?_eq_getElem hlt]
    rw [List.getElem?_eq_getElem hlt] at hr
    have : cat[i] = r := Option.some.inj hr
    simp [this, hp]

lemma mem_range_criterion {i : Nat} {cat : List AllStarRow} :
    i ∈ List.range cat.length ↔ i < cat.length := List.mem_range

/-- Membership in the assembled train index set, characterised by the row at
position i satisfying every enabled criterion. -/
lemma mem_filteredTrainIndex {cfg : ApogeeCfg} {cat : List AllStarRow}
    {i : Nat} :
    i ∈ filteredTrainIndex cfg cat ↔ ∃ r, cat.get? i = some r ∧
      (cfg.starflagcut = true → r.starflag = 0) ∧
      (cfg.aspcapflagcut = true → r.aspcapflag = 0) ∧
      cfg.tefflow ≤ r.param.getD 0 0 ∧
      r.vscatter < cfg.vscattercut ∧
      cfg.ironlow < r.x_h.getD 17 0 ∧
      r.param.getD 1 0 ≠ -9999 ∧
      cfg.SNRtrain_low < r.snr ∧
      r.snr < cfg.SNRtrain_high ∧
      1 < r.location_id ∧
      r.param.getD 0 0 ≤ cfg.teffhigh := by
  rw [filteredTrainIndex, mem_reduceIntersect]
  simp only [List.mem_cons, List.not_mem_nil, or_false, forall_eq_or_imp,
    forall_eq]
  constructor
  · rintro ⟨hsf, hasp, htl, hvs, hfe, hlg, hsl, hsh, hloc, htu⟩
    rcases mem_critIdx.mp htl with ⟨r, hr, hp⟩
    refine ⟨r, hr, ?_, ?_, by simpa using hp, ?_, ?_, ?_, ?_, ?_, ?_, ?_⟩
    · intro hcut
      rw [starflagIdx, hcut, if_pos rfl] at hsf
      rcases mem_critIdx.mp hsf with ⟨r2, hr2, hp2⟩
      rw [hr] at hr2
      rw [← Option.some.inj hr2] at hp2
      simpa using hp2
    · intro hcut
      rw [aspcapflagIdx, hcut, if_pos rfl] at hasp
      rcases mem_critIdx.mp hasp with ⟨r2, hr2, hp2⟩
      rw [hr] at hr2
      rw [← Option.some.inj hr2] at hp2
      simpa using hp2
    · rcases mem_critIdx.mp hvs with ⟨r2, hr2, hp2⟩
      rw [hr] at hr2
      rw [← Option.some.inj hr2] at hp2
      simpa using hp2
    · rcases mem_critIdx.mp hfe with ⟨r2, hr2, hp2⟩
      rw [hr] at hr2
      rw [← Option.some.inj hr2] at hp2
      simpa using hp2
    · rcases mem_critIdx.mp hlg with ⟨r2, hr2, hp2⟩
      rw [hr] at hr2
      rw [← Option.some.inj hr2] at hp2
      simpa using hp2
    · rcases mem_critIdx.mp hsl with ⟨r2, hr2, hp2⟩
      rw [hr] at hr2
      rw [← Option.some.inj hr2] at hp2
      simpa using hp2
    · rcases mem_critIdx.mp hsh with ⟨r2, hr2, hp2⟩
      rw [hr] at hr2
      rw [← Option.some.inj hr2] at hp2
      simpa using hp2
    · rcases mem_critIdx.mp hloc with ⟨r2, hr2, hp2⟩
      rw [hr] at hr2
      rw [← Option.some.inj hr2] at hp2
      simpa using hp2
    · rcases mem_critIdx.mp htu with ⟨r2, hr2, hp2⟩
      rw [hr] at hr2
      rw [← Option.some.inj hr2] at hp2
      simpa using hp2
  · rintro ⟨r, hr, hsf, hasp, htl, hvs, hfe, hlg, hsl, hsh, hloc, htu⟩
    have hlt : i < cat.length := by
      rw [List.get?_eq_getElem?] at hr
      by_contra hcon
      rw [List.getElem?_eq_none (by omega)] at hr
      exact Option.noConfusion hr
    refine ⟨?_, ?_, mem_critIdx.mpr ⟨r, hr, by simpa using htl⟩,
      mem_critIdx.mpr ⟨r, hr, by simpa using hvs⟩,
      mem_critIdx.mpr ⟨r, hr, by simpa using hfe⟩,
      mem_critIdx.mpr ⟨r, hr, by simpa using hlg⟩,
      mem_critIdx.mpr ⟨r, hr, by simpa using hsl⟩,
      mem_critIdx.mpr ⟨r, hr, by simpa using hsh⟩,
      mem_critIdx.mpr ⟨r, hr, by simpa using hloc⟩,
      mem_critIdx.mpr ⟨r, hr, by simpa using htu⟩⟩
    · rw [starflagIdx]
      by_cases hcut : cfg.starflagcut = true
      · rw [hcut, if_pos rfl]
        exact mem_critIdx.mpr ⟨r, hr, by simpa using hsf hcut⟩
      · rw [Bool.eq_false_iff.mpr hcut, if_neg (by simp)]
        exact List.mem_range.mpr hlt
    · rw [aspcapflagIdx]
      by_cases hcut : cfg.aspcapflagcut = true
      · rw [hcut, if_pos rfl]
        exact mem_critIdx.mpr ⟨r, hr, by simpa using hasp hcut⟩
      · rw [Bool.eq_false_iff.mpr hcut, if_neg (by simp)]
        exact List.mem_range.mpr hlt

/-- Membership in the assembled test index set. -/
lemma mem_filteredTestIndex {cfg : ApogeeCfg} {cat : List AllStarRow}
    {i : Nat} :
    i ∈ filteredTestIndex cfg cat ↔ ∃ r, cat.get? i = some r ∧
      (cfg.starflagcut = true → r.starflag = 0) ∧
      (cfg.aspcapflagcut = true → r.aspcapflag = 0) ∧
      cfg.tefflow ≤ r.param.getD 0 0 ∧
      r.vscatter < cfg.vscattercut ∧
      cfg.ironlow < r.x_h.getD 17 0 ∧
      r.param.getD 1 0 ≠ -9999 ∧
      cfg.SNRtest_low < r.snr ∧
      r.snr < cfg.SNRtest_high ∧
      1 < r.location_id ∧
      r.param.getD 0 0 ≤ cfg.teffhigh := by
  rw [show filteredTestIndex cfg cat =
    filteredTrainIndex (ApogeeCfg.mk cfg.starflagcut cfg.aspcapflagcut
      cfg.vscattercut cfg.SNRtest_low cfg.SNRtest_high cfg.tefflow
      cfg.teffhigh cfg.ironlow cfg.SNRtest_low cfg.SNRtest_high) cat from rfl]
  exact mem_filteredTrainIndex

lemma pairwise_lt_of_sorted_nodup {l : List Nat}
    (h1 : l.Sorted (· ≤ ·)) (h2 : l.Nodup) : l.Pairwise (· < ·) :=
  (List.Pairwise.and h1 h2).imp (fun hab => lt_of_le_of_ne hab.1 hab.2)

lemma eq_of_sorted_nodup_ext {l m : List Nat}
    (hl1 : l.Sorted (· ≤ ·)) (hl2 : l.Nodup)
    (hm1 : m.Sorted (· ≤ ·)) (hm2 : m.Nodup)
    (h : ∀ x, x ∈ l ↔ x ∈ m) : l = m :=
  List.eq_of_perm_of_sorted ((List.perm_ext_iff_of_nodup hl2 hm2).mpr h) hl1 hm1

/-- C9: both filtered index sequences are in catalog row order, strictly
increasing with no duplicates, for every catalog and configuration. -/
theorem c9_filtered_row_order (cfg : ApogeeCfg) (cat : List AllStarRow) :
    (filteredTrainIndex cfg cat).Pairwise (· < ·) ∧
      (filteredTestIndex cfg cat).Pairwise (· < ·) := by
  have h1 := sortedNodup_reduceIntersect
    [aspcapflagIdx cfg cat, tempLowerIdx cfg cat, vscatterIdx cfg cat,
     feIdx cfg cat, loggIdx cat, snrTrainLowIdx cfg cat,
     snrTrainHighIdx cfg cat, locationIdx cat, tempUpperIdx cfg cat]
    (starflagIdx cfg cat) (by simp)
  have h2 := sortedNodup_reduceIntersect
    [aspcapflagIdx cfg cat, tempLowerIdx cfg cat, vscatterIdx cfg cat,
     feIdx cfg cat, loggIdx cat, snrTestLowIdx cfg cat,
     snrTestHighIdx cfg cat, locationIdx cat, tempUpperIdx cfg cat]
    (starflagIdx cfg cat) (by simp)
  exact ⟨pairwise_lt_of_sorted_nodup h1.1 h1.2,
    pairwise_lt_of_sorted_nodup h2.1 h2.2⟩

/-- Disjointness of the train and test filtered index sets under
non-overlapping open SNR bands. -/
lemma filtered_disjoint (cfg : ApogeeCfg) (cat : List AllStarRow)
    (h : cfg.SNRtest_high ≤ cfg.SNRtrain_low ∨
      cfg.SNRtrain_high ≤ cfg.SNRtest_low) :
    ∀ i, ¬(i ∈ filteredTrainIndex cfg cat ∧ i ∈ filteredTestIndex cfg cat) := by
  rintro i ⟨htr, hte⟩
  rcases mem_filteredTrainIndex.mp htr with
    ⟨r, hr, _, _, _, _, _, _, hTl, hTh, _, _⟩
  rcases mem_filteredTestIndex.mp hte with
    ⟨r2, hr2, _, _, _, _, _, _, hSl, hSh, _, _⟩
  rw [hr] at hr2
  rw [← Option.some.inj hr2] at hSl hSh
  rcases h with h | h
  · exact absurd (lt_trans (lt_of_lt_of_le hSh h) hTl) (lt_irrefl _)
  · exact absurd (lt_trans (lt_of_lt_of_le hTh h) hSl) (lt_irrefl _)

/-- C4: whenever the train and test SNR bands do not overlap, the train and
test filtered index sets of compile_apogee share no index. -/
theorem c4_train_test_disjoint (cfg : ApogeeCfg) (cat : List AllStarRow)
    (h : cfg.SNRtest_high ≤ cfg.SNRtrain_low ∨
      cfg.SNRtrain_high ≤ cfg.SNRtest_low) :
    ∀ i, ¬(i ∈ filteredTrainIndex cfg cat ∧ i ∈ filteredTestIndex cfg cat) :=
  filtered_disjoint cfg cat h

/-- A synthetic catalog row passing every default cut, parametrised by
identifier, location and SNR. -/
def demoRow (sid : String) (loc : Int) (s : Rat) : AllStarRow :=
  { apogee_id := sid, location_id := loc, starflag := 0, aspcapflag := 0,
    vscatter := 0, snr := s, ra := 10, dec := 20,
    param := [4500, 2, 0, 0, 0, 0, 0], x_h := List.replicate 25 0 }

/-- A two-row synthetic catalog: one train-band row, one test-band row. -/
def demoCat : List AllStarRow := [demoRow "2M1" 2 300, demoRow "2M2" 2 150]

/-- Witness for C4 at the default configuration and the demo catalog. -/
theorem c4_witness :
    (defaultCfg.SNRtest_high ≤ defaultCfg.SNRtrain_low ∨
      defaultCfg.SNRtrain_high ≤ defaultCfg.SNRtest_low) ∧
    ¬(0 ∈ filteredTrainIndex defaultCfg demoCat ∧
      0 ∈ filteredTestIndex defaultCfg demoCat) :=
  ⟨by decide, c4_train_test_disjoint defaultCfg demoCat (by decide) 0⟩

/-- C6: the filtered index set is invariant under permuting the list of
per-criterion index sets before intersecting, for both variants. -/
theorem c6_order_independent (cfg : ApogeeCfg) (cat : List AllStarRow)
    {a b : List Nat} {l m : List (List Nat)}
    (h1 : List.Perm (a :: l) (trainCriteria cfg cat))
    (h2 : List.Perm (b :: m) (testCriteria cfg cat)) :
    reduceIntersect a l = filteredTrainIndex cfg cat ∧
      reduceIntersect b m = filteredTestIndex cfg cat :=
  ⟨reduceIntersect_perm h1, reduceIntersect_perm h2⟩

/-- Witness for C6: swapping the first two criteria of the train variant
leaves the result unchanged; the identity permutation on the test variant. -/
theorem c6_witness :
    reduceIntersect (aspcapflagIdx defaultCfg demoCat)
      (starflagIdx defaultCfg demoCat ::
        [tempLowerIdx defaultCfg demoCat, vscatterIdx defaultCfg demoCat,
         feIdx defaultCfg demoCat, loggIdx demoCat,
         snrTrainLowIdx defaultCfg demoCat, snrTrainHighIdx defaultCfg demoCat,
         locationIdx demoCat, tempUpperIdx defaultCfg demoCat]) =
      filteredTrainIndex defaultCfg demoCat ∧
    reduceIntersect (starflagIdx defaultCfg demoCat)
      [aspcapflagIdx defaultCfg demoCat, tempLowerIdx defaultCfg demoCat,
       vscatterIdx defaultCfg demoCat, feIdx defaultCfg demoCat,
       loggIdx demoCat, snrTestLowIdx defaultCfg demoCat,
       snrTestHighIdx defaultCfg demoCat, locationIdx demoCat,
       tempUpperIdx defaultCfg demoCat] =
      filteredTestIndex defaultCfg demoCat :=
  c6_order_independent defaultCfg demoCat
    (List.Perm.swap (starflagIdx defaultCfg demoCat)
      (aspcapflagIdx defaultCfg demoCat) _)
    (List.Perm.refl _)

/-- The non-SNR default criteria of compile_apogee, as one predicate. -/
def otherCriteriaOK (r : AllStarRow) : Prop :=
  r.starflag = 0 ∧ r.aspcapflag = 0 ∧ r.vscatter < 1 ∧
  (4000 : Rat) ≤ r.param.getD 0 0 ∧ r.param.getD 0 0 ≤ 5500 ∧
  (-3 : Rat) < r.x_h.getD 17 0 ∧ r.param.getD 1 0 ≠ -9999 ∧ 1 < r.location_id

instance (r : AllStarRow) : Decidable (otherCriteriaOK r) := by
  unfold otherCriteriaOK
  infer_instance

/-- Ten synthetic records, all satisfying every non-SNR default cut: one with
SNR exactly 200, five with SNR 300, four with SNR 150.  Exactly 6 rows have
SNR in the closed-below band [200, 99999] and 4 rows in [100, 200). -/
def cexCat7 : List AllStarRow :=
  [demoRow "2M01" 2 200, demoRow "2M02" 2 300, demoRow "2M03" 2 300,
   demoRow "2M04" 2 300, demoRow "2M05" 2 300, demoRow "2M06" 2 300,
   demoRow "2M07" 2 150, demoRow "2M08" 2 150, demoRow "2M09" 2 150,
   demoRow "2M10" 2 150]

/-- Counterexample to C7 as stated: in cexCat7 exactly the six rows 0-5 have
SNR in [200, 99999] and exactly rows 6-9 have SNR in [100, 200), every row
passes every other criterion, yet the train variant with the default bounds
returns only [1, 2, 3, 4, 5]: the row with SNR exactly 200 is cut by the
strict SNR > 200 comparison at h5_compiler.py line 128. -/
theorem c7_counterexample :
    cexCat7.length = 10 ∧
    (List.range 10).filter (fun i =>
      decide ((200 : Rat) ≤ (cexCat7.getD i dRow).snr ∧
        (cexCat7.getD i dRow).snr ≤ 99999)) = [0, 1, 2, 3, 4, 5] ∧
    (List.range 10).filter (fun i =>
      decide ((100 : Rat) ≤ (cexCat7.getD i dRow).snr ∧
        (cexCat7.getD i dRow).snr < 200)) = [6, 7, 8, 9] ∧
    cexCat7.all (fun r => decide (otherCriteriaOK r)) = true ∧
    filteredTrainIndex defaultCfg cexCat7 = [1, 2, 3, 4, 5] ∧
    filteredTrainIndex defaultCfg cexCat7 ≠ [0, 1, 2, 3, 4, 5] := by
  decide

/-- Row predicate: the SNR at catalog position i lies strictly inside the
open band (lo, hi). -/
def snrOpenBandAt (lo hi : Rat) (cat : List AllStarRow) (i : Nat) : Bool :=
  match cat.get? i with
  | some r => decide (lo < r.snr ∧ r.snr < hi)
  | none => false

/-- C7 amended: with the bands read as the strict open intervals the code
implements, a 10-record catalog whose records all satisfy every non-SNR
criterion filters to exactly the open-train-band rows (train variant) and
exactly the open-test-band rows (test variant), with no shared index. -/
theorem c7_amended (cat : List AllStarRow) (h10 : cat.length = 10)
    (hother : ∀ r ∈ cat, otherCriteriaOK r) :
    filteredTrainIndex defaultCfg cat =
      (List.range 10).filter (snrOpenBandAt 200 99999 cat) ∧
    filteredTestIndex defaultCfg cat =
      (List.range 10).filter (snrOpenBandAt 100 200 cat) ∧
    ∀ i, ¬(i ∈ filteredTrainIndex defaultCfg cat ∧
      i ∈ filteredTestIndex defaultCfg cat) := by
  have hsorted1 := sortedNodup_reduceIntersect
    [aspcapflagIdx defaultCfg cat, tempLowerIdx defaultCfg cat,
     vscatterIdx defaultCfg cat, feIdx defaultCfg cat, loggIdx cat,
     snrTrainLowIdx defaultCfg cat, snrTrainHighIdx defaultCfg cat,
     locationIdx cat, tempUpperIdx defaultCfg cat]
    (starflagIdx defaultCfg cat) (by simp)
  have hsorted2 := sortedNodup_reduceIntersect
    [aspcapflagIdx defaultCfg cat, tempLowerIdx defaultCfg cat,
     vscatterIdx defaultCfg cat, feIdx defaultCfg cat, loggIdx cat,
     snrTestLowIdx defaultCfg cat, snrTestHighIdx defaultCfg cat,
     locationIdx cat, tempUpperIdx defaultCfg cat]
    (starflagIdx defaultCfg cat) (by simp)
  have hrange : ∀ p : Nat → Bool, ((List.range 10).filter p).Sorted (· ≤ ·) ∧
      ((List.range 10).filter p).Nodup := by
    intro p
    constructor
    · exact List.Pairwise.filter p
        ((List.pairwise_lt_range 10).imp (fun hab => le_of_lt hab))
    · exact (List.nodup_range 10).filter p
  have hmemband : ∀ (lo hi : Rat) (x : Nat),
      x ∈ (List.range 10).filter (snrOpenBandAt lo hi cat) ↔
        (x < 10 ∧ ∃ r, cat.get? x = some r ∧ lo < r.snr ∧ r.snr < hi) := by
    intro lo hi x
    rw [List.mem_filter, List.mem_range]
    constructor
    · rintro ⟨hx, hband⟩
      refine ⟨hx, ?_⟩
      rw [snrOpenBandAt] at hband
      rcases hget : cat.get? x with _ | r
      · rw [hget] at hband
        exact absurd hband (by simp)
      · rw [hget] at hband
        simp at hband
        exact ⟨r, rfl, hband⟩
    · rintro ⟨hx, r, hr, h1, h2⟩
      refine ⟨hx, ?_⟩
      rw [snrOpenBandAt, hr]
      simp [h1, h2]
  refine ⟨?_, ?_, filtered_disjoint defaultCfg cat (Or.inl (le_refl 200))⟩
  · refine eq_of_sorted_nodup_ext hsorted1.1 hsorted1.2
      (hrange (snrOpenBandAt 200 99999 cat)).1
      (hrange (snrOpenBandAt 200 99999 cat)).2 ?_
    intro x
    rw [hmemband 200 99999 x, mem_filteredTrainIndex]
    constructor
    · rintro ⟨r, hr, _, _, _, _, _, _, hsl, hsh, _, _⟩
      have hlt : x < cat.length := by
        rw [List.get?_eq_getElem?] at hr
        by_contra hcon
        rw [List.getElem?_eq_none (by omega)] at hr
        exact Option.noConfusion hr
      exact ⟨by omega, r, hr, hsl, hsh⟩
    · rintro ⟨hx, r, hr, h1, h2⟩
      have hmem : r ∈ cat := List.get?_mem hr
      rcases hother r hmem with ⟨o1, o2, o3, o4, o5, o6, o7, o8⟩
      exact ⟨r, hr, fun _ => o1, fun _ => o2, o4, o3, o6, o7, h1, h2, o8, o5⟩
  · refine eq_of_sorted_nodup_ext hsorted2.1 hsorted2.2
      (hrange (snrOpenBandAt 100 200 cat)).1
      (hrange (snrOpenBandAt 100 200 cat)).2 ?_
    intro x
    rw [hmemband 100 200 x, mem_filteredTestIndex]
    constructor
    · rintro ⟨r, hr, _, _, _, _, _, _, hsl, hsh, _, _⟩
      have hlt : x < cat.length := by
        rw [List.get?_eq_getElem?] at hr
        by_contra hcon
        rw [List.getElem?_eq_none (by omega)] at hr
        exact Option.noConfusion hr
      exact ⟨by omega, r, hr, hsl, hsh⟩
    · rintro ⟨hx, r, hr, h1, h2⟩
      have hmem : r ∈ cat := List.get?_mem hr
      rcases hother r hmem with ⟨o1, o2, o3, o4, o5, o6, o7, o8⟩
      exact ⟨r, hr, fun _ => o1, fun _ => o2, o4, o3, o6, o7, h1, h2, o8, o5⟩

/-- Ten synthetic records strictly inside the open bands: six with SNR 300,
four with SNR 150, all passing every other criterion. -/
def wCat7 : List AllStarRow :=
  [demoRow "2M01" 2 300, demoRow "2M02" 2 300, demoRow "2M03" 2 300,
   demoRow "2M04" 2 300, demoRow "2M05" 2 300, demoRow "2M06" 2 300,
   demoRow "2M07" 2 150, demoRow "2M08" 2 150, demoRow "2M09" 2 150,
   demoRow "2M10" 2 150]

/-- Witness for the amended C7 at a concrete 10-record catalog. -/
theorem c7_amended_witness :
    wCat7.length = 10 ∧ (∀ r ∈ wCat7, otherCriteriaOK r) ∧
      filteredTrainIndex defaultCfg wCat7 =
        (List.range 10).filter (snrOpenBandAt 200 99999 wCat7) :=
  ⟨by decide, by decide, (c7_amended wCat7 (by decide) (by decide)).1⟩

/-- Result of a successful combined_spectra fetch plus fits.open: the raw
flux array (extension 1) and the best-fit array (extension 3). -/
structure SpecPair where
  flux : List Rat
  bestfit : List Rat

/-- Total row lookup modelling hdulist[1].data[column][index]. -/
def rowAt (cat : List AllStarRow) (i : Nat) : AllStarRow := cat.getD i dRow

/-- Whether the spectrum fetch for the record at catalog position i succeeds
(warningflag is None in the source). -/
def fetchOK (fetch : Int → String → Option SpecPair) (cat : List AllStarRow)
    (i : Nat) : Bool :=
  (fetch (rowAt cat i).location_id (rowAt cat i).apogee_id).isSome

/-- The fetched spectra for position i; only meaningful when fetchOK holds. -/
def fetchedPair (fetch : Int → String → Option SpecPair) (cat : List AllStarRow)
    (i : Nat) : SpecPair :=
  (fetch (rowAt cat i).location_id (rowAt cat i).apogee_id).getD ⟨[], []⟩

/-- The subsequence of filtered indices whose fetch succeeds, in order. -/
def successIdx (fetch : Int → String → Option SpecPair) (cat : List AllStarRow)
    (idxs : List Nat) : List Nat :=
  idxs.filter (fetchOK fetch cat)

/-- The 33 per-record column accumulators of the compile_apogee loop
(h5_compiler.py lines 152-184), one list per h5 dataset written from the
loop. -/
structure AssembledCols where
  spec : List (List Rat)
  spec_bestfit : List (List Rat)
  snr : List Rat
  ra : List Rat
  dec : List Rat
  teff : List Rat
  logg : List Rat
  mh : List Rat
  alpha_m : List Rat
  c : List Rat
  cl : List Rat
  n : List Rat
  o : List Rat
  na : List Rat
  mg : List Rat
  al : List Rat
  si : List Rat
  p : List Rat
  s : List Rat
  k : List Rat
  ca : List Rat
  ti : List Rat
  ti2 : List Rat
  v : List Rat
  cr : List Rat
  mn : List Rat
  fe : List Rat
  ni : List Rat
  cu : List Rat
  ge : List Rat
  rb : List Rat
  y : List Rat
  nd : List Rat

/-- All columns empty, as at the top of each pass of the loop. -/
def emptyCols : AssembledCols :=
  ⟨[], [], [], [], [], [], [], [], [], [], [], [], [], [], [], [], [],
   [], [], [], [], [], [], [], [], [], [], [], [], [], [], [], []⟩

/-- The per-record loop of compile_apogee (lines 194-237): for each filtered
index, fetch the combined spectrum; on success apply gap_delete with the
hard-coded dr=14 (line 202) and append the record values to every column; on
failure append nothing.  The element columns read X_H at the indices the
source uses (0-17 and 19-24; 18 is skipped). -/
def assembleLoop (fetch : Int → String → Option SpecPair)
    (cat : List AllStarRow) : List Nat → AssembledCols
  | [] => emptyCols
  | i :: rest =>
    let cols := assembleLoop fetch cat rest
    let r := rowAt cat i
    match fetch r.location_id r.apogee_id with
    | none => cols
    | some sp =>
      { spec := gap14 sp.flux :: cols.spec
        spec_bestfit := gap14 sp.bestfit :: cols.spec_bestfit
        snr := r.snr :: cols.snr
        ra := r.ra :: cols.ra
        dec := r.dec :: cols.dec
        teff := r.param.getD 0 0 :: cols.teff
        logg := r.param.getD 1 0 :: cols.logg
        mh := r.param.getD 3 0 :: cols.mh
        alpha_m := r.param.getD 6 0 :: cols.alpha_m
        c := r.x_h.getD 0 0 :: cols.c
        cl := r.x_h.getD 1 0 :: cols.cl
        n := r.x_h.getD 2 0 :: cols.n
        o := r.x_h.getD 3 0 :: cols.o
        na := r.x_h.getD 4 0 :: cols.na
        mg := r.x_h.getD 5 0 :: cols.mg
        al := r.x_h.getD 6 0 :: cols.al
        si := r.x_h.getD 7 0 :: cols.si
        p := r.x_h.getD 8 0 :: cols.p
        s := r.x_h.getD 9 0 :: cols.s
        k := r.x_h.getD 10 0 :: cols.k
        ca := r.x_h.getD 11 0 :: cols.ca
        ti := r.x_h.getD 12 0 :: cols.ti
        ti2 := r.x_h.getD 13 0 :: cols.ti2
        v := r.x_h.getD 14 0 :: cols.v
        cr := r.x_h.getD 15 0 :: cols.cr
        mn := r.x_h.getD 16 0 :: cols.mn
        fe := r.x_h.getD 17 0 :: cols.fe
        ni := r.x_h.getD 19 0 :: cols.ni
        cu := r.x_h.getD 20 0 :: cols.cu
        ge := r.x_h.getD 21 0 :: cols.ge
        rb := r.x_h.getD 22 0 :: cols.rb
        y := r.x_h.getD 23 0 :: cols.y
        nd := r.x_h.getD 24 0 :: cols.nd }

/-- Spec-side description of the columns: every column is the image of one
and the same index list under a per-record extractor for that column. -/
def colsOfRows (fetch : Int → String → Option SpecPair)
    (cat : List AllStarRow) (sIdxs : List Nat) : AssembledCols :=
  { spec := sIdxs.map (fun i => gap14 (fetchedPair fetch cat i).flux)
    spec_bestfit := sIdxs.map (fun i => gap14 (fetchedPair fetch cat i).bestfit)
    snr := sIdxs.map (fun i => (rowAt cat i).snr)
    ra := sIdxs.map (fun i => (rowAt cat i).ra)
    dec := sIdxs.map (fun i => (rowAt cat i).dec)
    teff := sIdxs.map (fun i => (rowAt cat i).param.getD 0 0)
    logg := sIdxs.map (fun i => (rowAt cat i).param.getD 1 0)
    mh := sIdxs.map (fun i => (rowAt cat i).param.getD 3 0)
    alpha_m := sIdxs.map (fun i => (rowAt cat i).param.getD 6 0)
    c := sIdxs.map (fun i => (rowAt cat i).x_h.getD 0 0)
    cl := sIdxs.map (fun i => (rowAt cat i).x_h.getD 1 0)
    n := sIdxs.map (fun i => (rowAt cat i).x_h.getD 2 0)
    o := sIdxs.map (fun i => (rowAt cat i).x_h.getD 3 0)
    na := sIdxs.map (fun i => (rowAt cat i).x_h.getD 4 0)
    mg := sIdxs.map (fun i => (rowAt cat i).x_h.getD 5 0)
    al := sIdxs.map (fun i => (rowAt cat i).x_h.getD 6 0)
    si := sIdxs.map (fun i => (rowAt cat i).x_h.getD 7 0)
    p := sIdxs.map (fun i => (rowAt cat i).x_h.getD 8 0)
    s := sIdxs.map (fun i => (rowAt cat i).x_h.getD 9 0)
    k := sIdxs.map (fun i => (rowAt cat i).x_h.getD 10 0)
    ca := sIdxs.map (fun i => (rowAt cat i).x_h.getD 11 0)
    ti := sIdxs.map (fun i => (rowAt cat i).x_h.getD 12 0)
    ti2 := sIdxs.map (fun i => (rowAt cat i).x_h.getD 13 0)
    v := sIdxs.map (fun i => (rowAt cat i).x_h.getD 14 0)
    cr := sIdxs.map (fun i => (rowAt cat i).x_h.getD 15 0)
    mn := sIdxs.map (fun i => (rowAt cat i).x_h.getD 16 0)
    fe := sIdxs.map (fun i => (rowAt cat i).x_h.getD 17 0)
    ni := sIdxs.map (fun i => (rowAt cat i).x_h.getD 19 0)
    cu := sIdxs.map (fun i => (rowAt cat i).x_h.getD 20 0)
    ge := sIdxs.map (fun i => (rowAt cat i).x_h.getD 21 0)
    rb := sIdxs.map (fun i => (rowAt cat i).x_h.getD 22 0)
    y := sIdxs.map (fun i => (rowAt cat i).x_h.getD 23 0)
    nd := sIdxs.map (fun i => (rowAt cat i).x_h.getD 24 0) }

/-- The loop builds exactly the aligned columns over the successfully fetched
subsequence of the filtered indices. -/
lemma assembleLoop_eq (fetch : Int → String → Option SpecPair)
    (cat : List AllStarRow) :
    ∀ idxs : List Nat,
      assembleLoop fetch cat idxs =
        colsOfRows fetch cat (successIdx fetch cat idxs) := by
  intro idxs
  induction idxs with
  | nil => rfl
  | cons i rest ih =>
    rcases hf : fetch (rowAt cat i).location_id (rowAt cat i).apogee_id
      with _ | sp
    · have hok : fetchOK fetch cat i = false := by
        rw [fetchOK, hf]
        rfl
      simp only [assembleLoop, hf, ih, successIdx, List.filter_cons, hok,
        Bool.false_eq_true, if_false]
    · have hok : fetchOK fetch cat i = true := by
        rw [fetchOK, hf]
        rfl
      have hpair : fetchedPair fetch cat i = sp := by
        rw [fetchedPair, hf]
        rfl
      simp only [assembleLoop, hf, ih, successIdx, List.filter_cons, hok,
        if_true, colsOfRows, List.map_cons, hpair]

/-- The filtered index list compile_apogee assembles for a table: the train
list for the train table, the test list for the test table. -/
def filteredIndexFor (cfg : ApogeeCfg) (cat : List AllStarRow)
    (isTrain : Bool) : List Nat :=
  if isTrain then filteredTrainIndex cfg cat else filteredTestIndex cfg cat

/-- One h5 output file of compile_apogee: the loop columns plus the index
dataset, which the source writes as the entire filtered index list
(h5_compiler.py line 243) regardless of fetch failures. -/
structure H5Table where
  cols : AssembledCols
  index : List Nat

/-- compile_apogee, per output table (lines 151-275): filter, run the
per-record loop, write every column plus the full filtered index list.  The
configured data release dr flows to the catalog and fetch paths only; the
gap_delete call inside the loop hard-codes dr=14 (line 202), so dr does not
enter the assembly. -/
def compile_apogee_table (dr : Int) (cfg : ApogeeCfg) (cat : List AllStarRow)
    (fetch : Int → String → Option SpecPair) (isTrain : Bool) : H5Table :=
  { cols := assembleLoop fetch cat (filteredIndexFor cfg cat isTrain)
    index := filteredIndexFor cfg cat isTrain }

/-- Two synthetic train-band rows with distinct SNR values. -/
def cexCat2 : List AllStarRow := [demoRow "2MA" 2 300, demoRow "2MB" 2 301]

/-- A fetch that fails for the first row and succeeds for the second. -/
def cexFetch2 : Int → String → Option SpecPair := fun _ sid =>
  if sid = "2MB" then some ⟨List.replicate 8575 1, List.replicate 8575 1⟩
  else none

/-- Counterexample to C2 as stated: both rows of cexCat2 pass the train
filter, the fetch of row 0 fails, so the per-record columns hold only the
values of row 1, yet the index dataset is the full filtered list [0, 1].
Row 0 of the output pairs index value 0 with the SNR 301 of row 1, and the
index column does not even have the common column length. -/
theorem c2_counterexample :
    (compile_apogee_table 14 defaultCfg cexCat2 cexFetch2 true).index =
      [0, 1] ∧
    (compile_apogee_table 14 defaultCfg cexCat2 cexFetch2 true).cols.snr =
      [301] ∧
    (cexCat2.getD 0 dRow).snr = 300 ∧
    (compile_apogee_table 14 defaultCfg cexCat2 cexFetch2 true).cols.snr.length ≠
      (compile_apogee_table 14 defaultCfg cexCat2 cexFetch2 true).index.length := by
  decide

/-- C2 amended: all 33 per-record columns are mutually aligned, each being
the image of the same successfully-fetched index subsequence under its
extractor, and no incomplete row is written; but the index dataset is the
entire filtered list, so it is aligned with the other columns only when
every fetch succeeds. -/
theorem c2_amended_alignment (dr : Int) (cfg : ApogeeCfg)
    (cat : List AllStarRow) (fetch : Int → String → Option SpecPair)
    (isTrain : Bool) :
    (compile_apogee_table dr cfg cat fetch isTrain).cols =
      colsOfRows fetch cat
        (successIdx fetch cat (filteredIndexFor cfg cat isTrain)) ∧
    (compile_apogee_table dr cfg cat fetch isTrain).index =
      filteredIndexFor cfg cat isTrain ∧
    ((∀ i ∈ filteredIndexFor cfg cat isTrain, fetchOK fetch cat i = true) →
      successIdx fetch cat (filteredIndexFor cfg cat isTrain) =
        filteredIndexFor cfg cat isTrain) :=
  ⟨assembleLoop_eq fetch cat (filteredIndexFor cfg cat isTrain), rfl,
    fun h => List.filter_eq_self.mpr h⟩

/-- A fetch that always succeeds with a one-pixel spectrum. -/
def allFetch : Int → String → Option SpecPair := fun _ _ => some ⟨[1], [1]⟩

/-- Witness for the amended C2: with an always-successful fetch the
successful subsequence is the whole filtered index list. -/
theorem c2_witness :
    (∀ i ∈ filteredIndexFor defaultCfg demoCat true,
      fetchOK allFetch demoCat i = true) ∧
    successIdx allFetch demoCat (filteredIndexFor defaultCfg demoCat true) =
      filteredIndexFor defaultCfg demoCat true :=
  ⟨by decide,
    (c2_amended_alignment 14 defaultCfg demoCat allFetch true).2.2 (by decide)⟩

/-- Generalised DR14 gap length: for any input at least 8575 long, the four
deleted ranges remove exactly 1061 entries. -/
lemma gap14_length_of_ge {α : Type} (spec : List α) (h : 8575 ≤ spec.length) :
    (gap14 spec).length = spec.length - 1061 := by
  rw [gap14, npDelete_arange _ 8335 8575 (by omega),
    npDelete_arange _ 6080 6344 (by omega),
    npDelete_arange _ 3274 3585 (by omega), npDelete_arange _ 0 246 (by omega)]
  simp only [List.length_append, List.length_take, List.length_drop]
  omega

/-- C3 evidence: the spectra stored by compile_apogee are always processed
with the DR14 gap layout, whatever data release the run was configured with
(the gap_delete call at h5_compiler.py line 202 hard-codes dr=14); and the
DR13 and DR14 layouts genuinely differ on an 8575-length input. -/
theorem c3_dr_ignored (dr : Int) (cfg : ApogeeCfg) (cat : List AllStarRow)
    (fetch : Int → String → Option SpecPair) (isTrain : Bool) :
    (compile_apogee_table dr cfg cat fetch isTrain).cols.spec =
      (successIdx fetch cat (filteredIndexFor cfg cat isTrain)).map
        (fun i => gap14 (fetchedPair fetch cat i).flux) ∧
    (gap13 (List.range 8575)).length = 7216 ∧
    (gap14 (List.range 8575)).length = 7514 ∧
    gap13 (List.range 8575) ≠ gap14 (List.range 8575) := by
  refine ⟨?_, gap13_length _ (List.length_range 8575),
    gap14_length _ (List.length_range 8575), ?_⟩
  · rw [show (compile_apogee_table dr cfg cat fetch isTrain).cols =
      assembleLoop fetch cat (filteredIndexFor cfg cat isTrain) from rfl,
      assembleLoop_eq]
    rfl
  · intro hcon
    have hlen := congrArg List.length hcon
    rw [gap13_length _ (List.length_range 8575),
      gap14_length _ (List.length_range 8575)] at hlen
    exact absurd hlen (by decide)

/-- A single synthetic row passing every default cut. -/
def cexCat8 : List AllStarRow := [demoRow "2MC" 2 300]

/-- A fetch that succeeds but returns 9000-pixel arrays, so the gap-removed
length 7939 disagrees with the expected 7514. -/
def cexFetch8 : Int → String → Option SpecPair := fun _ _ =>
  some ⟨List.replicate 9000 1, List.replicate 9000 1⟩

/-- Counterexample to C8 as stated: a fetched spectrum whose gap-removed
length is 7939, not the expected 7514, is nevertheless appended to the
output -- the record is not skipped, because the loop performs no length
check at all (h5_compiler.py lines 197-206). -/
theorem c8_counterexample :
    (gap14 (List.replicate 9000 (1 : Rat))).length = 7939 ∧
    (gap14 (List.replicate 9000 (1 : Rat))).length ≠ 7514 ∧
    (assembleLoop cexFetch8 cexCat8 [0]).spec =
      [gap14 (List.replicate 9000 (1 : Rat))] ∧
    (assembleLoop cexFetch8 cexCat8 [0]).spec.length = 1 := by
  have hlen : (gap14 (List.replicate 9000 (1 : Rat))).length = 7939 := by
    rw [gap14_length_of_ge _ (by rw [List.length_replicate]; omega)]
    rw [List.length_replicate]
  have hspec : (assembleLoop cexFetch8 cexCat8 [0]).spec =
      [gap14 (List.replicate 9000 (1 : Rat))] := by
    rw [assembleLoop_eq]
    rfl
  exact ⟨hlen, by rw [hlen]; decide, hspec, by rw [hspec]; rfl⟩

/-- C8 amended: a record is excluded from the output exactly when its fetch
fails; the spectrum column is the exact gap_delete image of each fetched
flux array, with no length validation, truncation or padding. -/
theorem c8_no_length_check (fetch : Int → String → Option SpecPair)
    (cat : List AllStarRow) (idxs : List Nat) :
    (assembleLoop fetch cat idxs).spec =
      (successIdx fetch cat idxs).map
        (fun i => gap14 (fetchedPair fetch cat i).flux) ∧
    (assembleLoop fetch cat idxs).spec.length =
      (successIdx fetch cat idxs).length ∧
    ∀ i ∈ idxs,
      (fetchOK fetch cat i = false ↔ i ∉ successIdx fetch cat idxs) := by
  have hspec : (assembleLoop fetch cat idxs).spec =
      (successIdx fetch cat idxs).map
        (fun i => gap14 (fetchedPair fetch cat i).flux) := by
    rw [assembleLoop_eq]
    rfl
  refine ⟨hspec, by rw [hspec, List.length_map], ?_⟩
  intro i hi
  rw [successIdx, List.mem_filter]
  constructor
  · intro hko hmem
    rw [hko] at hmem
    exact Bool.noConfusion hmem.2
  · intro hnm
    rcases hb : fetchOK fetch cat i with _ | _
    · rfl
    · exact absurd ⟨hi, hb⟩ hnm

/-- Witness for the amended C8 at the length-mismatch instance: the record is
not excluded, because its fetch succeeded. -/
theorem c8_witness :
    0 ∈ ([0] : List Nat) ∧
      (fetchOK cexFetch8 cexCat8 0 = false ↔
        0 ∉ successIdx cexFetch8 cexCat8 [0]) :=
  ⟨by decide, (c8_no_length_check cexFetch8 cexCat8 [0]).2.2 0 (by decide)⟩

lemma getD_map_of_lt {α β : Type} (l : List α) (f : α → β) (d : β) (d0 : α)
    {j : Nat} (h : j < l.length) : (l.map f).getD j d = f (l.getD j d0) := by
  rw [List.getD_eq_getElem?_getD, List.getElem?_map,
    List.getD_eq_getElem?_getD, List.getElem?_eq_getElem h]
  simp

/-- parallax_gaia_percent (h5_compiler.py line 577): the elementwise ratio
parallax_error / parallax.  The float constant 0.1 of the source is modelled
as the exact rational 1/10. -/
def gaiaPercent (parallax_error parallax : List Rat) : List Rat :=
  List.zipWith (fun e pl => e / pl) parallax_error parallax

/-- Fancy indexing arr[idxs] of a rational array by an index array. -/
def fancyIndex (arr : List Rat) (idxs : List Nat) : List Rat :=
  idxs.map (fun j => arr.getD j 0)

/-- The train selection of compile_gaia (line 584):
np.where(percent[m2] >= 0.1)[0]. -/
def gaiaTrainSel (percent : List Rat) (m2 : List Nat) : List Nat :=
  npWhere ((fancyIndex percent m2).map (fun x => decide (1 / 10 ≤ x)))

/-- The test selection of compile_gaia (line 588):
np.where(percent[m2] < 0.1)[0]. -/
def gaiaTestSel (percent : List Rat) (m2 : List Nat) : List Nat :=
  npWhere ((fancyIndex percent m2).map (fun x => decide (x < 1 / 10)))

/-- The matched pairs selected into one partition (lines 585-586, 589-590):
m1[sel] zipped with m2[sel]. -/
def selPairs (m1 m2 : List Nat) (sel : List Nat) : List (Nat × Nat) :=
  sel.map (fun j => (m1.getD j 0, m2.getD j 0))

lemma mem_gaiaTrainSel {percent : List Rat} {m2 : List Nat} {j : Nat}
    (hj : j < m2.length) :
    j ∈ gaiaTrainSel percent m2 ↔ 1 / 10 ≤ percent.getD (m2.getD j 0) 0 := by
  rw [gaiaTrainSel, mem_npWhere, List.length_map, fancyIndex, List.length_map]
  rw [getD_map_of_lt _ _ false 0 (by rw [List.length_map]; omega)]
  rw [getD_map_of_lt _ _ (0 : Rat) 0 hj]
  simp [hj]

lemma mem_gaiaTestSel {percent : List Rat} {m2 : List Nat} {j : Nat}
    (hj : j < m2.length) :
    j ∈ gaiaTestSel percent m2 ↔ percent.getD (m2.getD j 0) 0 < 1 / 10 := by
  rw [gaiaTestSel, mem_npWhere, List.length_map, fancyIndex, List.length_map]
  rw [getD_map_of_lt _ _ false 0 (by rw [List.length_map]; omega)]
  rw [getD_map_of_lt _ _ (0 : Rat) 0 hj]
  simp [hj]

/-- C10: compile_gaia partitions the matched pairs by parallax precision: a
match position goes to the train selection exactly when its
parallax_error/parallax ratio is at least 1/10, to the test selection
exactly when the ratio is below 1/10, and the two selections are disjoint
and together cover every match position. -/
theorem c10_parallax_partition (percent : List Rat) (m2 : List Nat) (j : Nat)
    (hj : j < m2.length) :
    (j ∈ gaiaTrainSel percent m2 ↔
      1 / 10 ≤ percent.getD (m2.getD j 0) 0) ∧
    (j ∈ gaiaTestSel percent m2 ↔
      percent.getD (m2.getD j 0) 0 < 1 / 10) ∧
    ¬(j ∈ gaiaTrainSel percent m2 ∧ j ∈ gaiaTestSel percent m2) ∧
    (j ∈ gaiaTrainSel percent m2 ∨ j ∈ gaiaTestSel percent m2) := by
  refine ⟨mem_gaiaTrainSel hj, mem_gaiaTestSel hj, ?_, ?_⟩
  · rintro ⟨h1, h2⟩
    rw [mem_gaiaTrainSel hj] at h1
    rw [mem_gaiaTestSel hj] at h2
    exact absurd h1 (not_le.mpr h2)
  · rcases le_or_lt (1 / 10 : Rat) (percent.getD (m2.getD j 0) 0) with h | h
    · exact Or.inl ((mem_gaiaTrainSel hj).mpr h)
    · exact Or.inr ((mem_gaiaTestSel hj).mpr h)

/-- Witness for C10 at a concrete match list: two matches, precise and
imprecise parallaxes. -/
theorem c10_witness :
    0 < ([0, 1] : List Nat).length ∧
    ((0 ∈ gaiaTrainSel [1, 0] [0, 1] ↔
      (1 : Rat) / 10 ≤ ([1, 0] : List Rat).getD (([0, 1] : List Nat).getD 0 0) 0) ∧
    (0 ∈ gaiaTestSel [1, 0] [0, 1] ↔
      ([1, 0] : List Rat).getD (([0, 1] : List Nat).getD 0 0) 0 < 1 / 10) ∧
    ¬(0 ∈ gaiaTrainSel [1, 0] [0, 1] ∧ 0 ∈ gaiaTestSel [1, 0] [0, 1]) ∧
    (0 ∈ gaiaTrainSel [1, 0] [0, 1] ∨ 0 ∈ gaiaTestSel [1, 0] [0, 1])) :=
  ⟨by decide, c10_parallax_partition [1, 0] [0, 1] 0 (by decide)⟩

end AstroNN
